import Mathlib

/-!
# Verification of the Terra RFQ backend core

Shallow embedding of the event-sourced RFQ aggregate of the Terra backend
(crates `domain`, `application`, `infrastructure`), translated from the Rust
source:

* `backend/crates/domain/src/value_objects.rs` — validated value objects;
* `backend/crates/domain/src/entities.rs`      — `RfqMeta`, `RfqIndex`, ...;
* `backend/crates/domain/src/events.rs`        — the `RfqEvent` tagged union;
* `backend/crates/infrastructure/src/s3.rs`    — the S3 repository and the
  idempotency service (the blob store is modeled as explicit state);
* `backend/crates/application/src/services.rs` — `RfqService`.

Modeling conventions, used throughout:

* Rust `String` is Lean `String` (a list of unicode scalar values, exactly as
  in Rust); Rust `String::len` counts UTF-8 bytes and is embedded as `rustLen`
  (the sum of the UTF-8 sizes of the characters), while `chars().count()` is
  `s.data.length`.
* `chrono::DateTime<Utc>` is embedded as `Time := Nat`, a count of
  nanoseconds.  `to_rfc3339` renders the full instant (including nanoseconds)
  and `parse_from_rfc3339` is its exact left inverse, so the composition of
  rendering a timestamp into `next_since` and re-parsing it is the identity;
  we therefore keep timestamp-valued DTO fields at type `Time` instead of
  modeling the RFC-3339 character syntax.  The storage key format
  `%Y-%m-%dT%H-%M-%SZ`, in contrast, truncates the instant to whole seconds:
  that truncation is `toSec`.
* UUIDs (event ids) are drawn from a linearly ordered supply; since only
  freshness and the total (lexicographic, fixed-width) order of uuid strings
  matter to the code, they are embedded as `Nat`.
* Each call to a generator (`Utc::now()`, `Uuid::new_v4()`,
  `RfqId::generate()`) inside a command is one explicit parameter of the
  embedded command, listed in source order in a `CreateGen` / `MsgGen` record.
* Fallible Rust functions returning `Result<T, DomainError>` become
  `Except DomainError T`; stateful commands take and return a `Store` and the
  writes performed before an early `return Err(..)` are preserved in the
  returned store (S3 writes are durable; nothing rolls back).
-/

deriving instance DecidableEq for Except

namespace Terra

/-- `domain/src/error.rs`: the `DomainError` enum (payload = the message). -/
inductive DomainError where
  | InvalidInput (msg : String)
  | ValidationFailed (msg : String)
  | NotFound (msg : String)
  | Conflict (msg : String)
  | Internal (msg : String)
deriving DecidableEq, Repr

/-- Rust `String::len()`: the number of UTF-8 bytes of the string. -/
def rustLen (s : String) : Nat := (s.data.map Char.utf8Size).sum

/-- Characters admitted by the regex class `[a-zA-Z0-9_-]`. -/
def isIdChar (c : Char) : Bool := c.isAlphanum || c = '_' || c = '-'

/-- `value_objects.rs`: `TenantId` (validated wrapper). -/
structure TenantId where
  val : String
deriving DecidableEq, Repr

/-- `TenantId::new`: 1–50 bytes and every char in `[a-zA-Z0-9_-]`
(the regex `^[a-zA-Z0-9_-]+$`). -/
def TenantId.new (id : String) : Except DomainError TenantId :=
  if id.data.isEmpty || rustLen id > 50 then
    .error (.ValidationFailed "Tenant ID must be 1-50 characters")
  else if id.data.all isIdChar then
    .ok ⟨id⟩
  else
    .error (.ValidationFailed "Tenant ID can only contain alphanumeric characters, underscores, and hyphens")

/-- `value_objects.rs`: `RfqId` (validated wrapper). -/
structure RfqId where
  val : String
deriving DecidableEq, Repr

/-- `RfqId::new`: 1–50 bytes, otherwise free-form. -/
def RfqId.new (id : String) : Except DomainError RfqId :=
  if id.data.isEmpty || rustLen id > 50 then
    .error (.ValidationFailed "RFQ ID must be 1-50 characters")
  else
    .ok ⟨id⟩

/-- `value_objects.rs`: `ManufacturerId` (validated wrapper). -/
structure ManufacturerId where
  val : String
deriving DecidableEq, Repr

/-- `ManufacturerId::new`: 1–50 bytes and matching `^mfg_[a-zA-Z0-9_-]+$`. -/
def ManufacturerId.new (id : String) : Except DomainError ManufacturerId :=
  if id.data.isEmpty || rustLen id > 50 then
    .error (.ValidationFailed "Manufacturer ID must be 1-50 characters")
  else
    match id.data with
    | 'm' :: 'f' :: 'g' :: '_' :: rest =>
      if !rest.isEmpty && rest.all isIdChar then
        .ok ⟨id⟩
      else
        .error (.ValidationFailed "Manufacturer ID must start with mfg_ and contain only alphanumeric characters, underscores, and hyphens")
    | _ =>
      .error (.ValidationFailed "Manufacturer ID must start with mfg_ and contain only alphanumeric characters, underscores, and hyphens")

/-- Characters of the regex class `[a-zA-Z0-9._%+-]` (email local part). -/
def isLocalChar (c : Char) : Bool :=
  c.isAlphanum || c = '.' || c = '_' || c = '%' || c = '+' || c = '-'

/-- Characters of the regex class `[a-zA-Z0-9.-]` (email domain part). -/
def isDomChar (c : Char) : Bool := c.isAlphanum || c = '.' || c = '-'

/-- Split a char list at the first occurrence of `c` (the separator is
dropped); `none` when `c` does not occur. -/
def splitAtChar (c : Char) : List Char → Option (List Char × List Char)
  | [] => none
  | x :: xs =>
    if x = c then some ([], xs)
    else (splitAtChar c xs).map (fun p => (x :: p.1, p.2))

/-- Split a char list at its last `'.'` (the dot is dropped); `none` when no
dot occurs. -/
def lastDotSplit (d : List Char) : Option (List Char × List Char) :=
  let rev := d.reverse
  let t := rev.takeWhile (fun c => c ≠ '.')
  match rev.drop t.length with
  | [] => none
  | _ :: p => some (p.reverse, t.reverse)

/-- Decision procedure for the anchored email regex of `Email::new`,
`^[a-zA-Z0-9._%+-]+@[a-zA-Z0-9.-]+\.[a-zA-Z]{2,}$`.

The split at `'@'` is forced (no character class of the regex contains `'@'`)
and the final `\.[a-zA-Z]{2,}$` group is forced to start at the last dot
(the alphabetic class contains no dot), so matching the regex is equivalent
to: a nonempty all-local-class part before the first `'@'`, and after it a
nonempty all-domain-class part, a dot, and a final all-alphabetic part of
length at least 2. -/
def emailMatches (s : List Char) : Bool :=
  match splitAtChar '@' s with
  | none => false
  | some (loc, rest) =>
    !loc.isEmpty && loc.all isLocalChar &&
    (match lastDotSplit rest with
     | none => false
     | some (p, t) =>
       !p.isEmpty && p.all isDomChar && decide (2 ≤ t.length) && t.all Char.isAlpha)

/-- `value_objects.rs`: `Email` (validated wrapper). -/
structure Email where
  val : String
deriving DecidableEq, Repr

/-- `Email::new`: reject unless the email regex matches. -/
def Email.new (email : String) : Except DomainError Email :=
  if emailMatches email.data then .ok ⟨email⟩
  else .error (.ValidationFailed "Invalid email format")

/-- `value_objects.rs`: `ContentType` (validated wrapper). -/
structure ContentType where
  val : String
deriving DecidableEq, Repr

/-- `ContentType::new`: closed allow-list. -/
def ContentType.new (content_type : String) : Except DomainError ContentType :=
  if content_type = "image/jpeg" || content_type = "image/png" ||
     content_type = "image/webp" || content_type = "image/avif" ||
     content_type = "application/pdf" then
    .ok ⟨content_type⟩
  else
    .error (.ValidationFailed "Content type is not allowed")

/-- `value_objects.rs`: `FileSize` (validated wrapper, bytes as `u64`). -/
structure FileSize where
  val : Nat
deriving DecidableEq, Repr

/-- `FileSize::MAX_SIZE_BYTES = 15 * 1024 * 1024`. -/
def FileSize.maxSizeBytes : Nat := 15 * 1024 * 1024

/-- `FileSize::new`: nonzero and at most 15 MiB. -/
def FileSize.new (size_bytes : Nat) : Except DomainError FileSize :=
  if size_bytes = 0 then
    .error (.ValidationFailed "File size cannot be zero")
  else if size_bytes > FileSize.maxSizeBytes then
    .error (.ValidationFailed "File size exceeds maximum")
  else
    .ok ⟨size_bytes⟩

/-- `value_objects.rs`: `MessageBody` (validated wrapper). -/
structure MessageBody where
  val : String
deriving DecidableEq, Repr

/-- `MessageBody::MAX_LENGTH = 8000`. -/
def MessageBody.maxLength : Nat := 8000

/-- `MessageBody::new`: nonempty, `len()` (UTF-8 **bytes**) at most 8000, and
not containing both `'<'` and `'>'` (the heuristic HTML-tag block). -/
def MessageBody.new (body : String) : Except DomainError MessageBody :=
  if body.data.isEmpty then
    .error (.ValidationFailed "Message body cannot be empty")
  else if rustLen body > MessageBody.maxLength then
    .error (.ValidationFailed "Message body exceeds maximum length")
  else if body.data.contains '<' && body.data.contains '>' then
    .error (.ValidationFailed "HTML tags are not allowed in message body")
  else
    .ok ⟨body⟩

/-- Timestamps: `chrono::DateTime<Utc>` as a count of nanoseconds. -/
abbrev Time := Nat

/-- Nanoseconds per second, for the second-granular storage-key encoding. -/
def nanosPerSec : Nat := 1000000000

/-- The storage-key timestamp encoding `%Y-%m-%dT%H-%M-%SZ` truncates the
instant to whole seconds; `toSec` is that truncation.  The rendered form is
fixed width, so comparing two rendered key timestamps lexicographically is
comparing `toSec` values numerically. -/
def toSec (t : Time) : Nat := t / nanosPerSec

/-- `entities.rs`: `Contact`. -/
structure Contact where
  email : String
  name : Option String
deriving DecidableEq, Repr

/-- `entities.rs`: `AttachmentRef`. -/
structure AttachmentRef where
  id : String
  file_name : String
  content_type : String
  size_bytes : Nat
  key : String
deriving DecidableEq, Repr

/-- `entities.rs`: `RfqStatus`. -/
inductive RfqStatus where
  | Open
  | Archived
  | Closed
deriving DecidableEq, Repr

/-- `entities.rs`: `ParticipantRole`. -/
inductive ParticipantRole where
  | Buyer
  | Manufacturer
deriving DecidableEq, Repr

/-- `entities.rs`: `Participant`. -/
structure Participant where
  role : ParticipantRole
  email : String
  name : Option String
deriving DecidableEq, Repr

/-- `entities.rs`: `RfqMeta` (the aggregate snapshot), every field kept. -/
structure RfqMeta where
  id : String
  tenant_id : String
  manufacturer_id : String
  buyer : Contact
  subject : String
  status : RfqStatus
  created_at : Time
  last_event_ts : Time
  participants : List Participant
  attachments : Option (List AttachmentRef)
deriving DecidableEq, Repr

/-- `entities.rs`: `RfqIndex` (`count` is a `u32`; the commands only ever add
1 to a small count, far from wraparound, so it is embedded as `Nat`). -/
structure RfqIndex where
  last_event_ts : Time
  count : Nat
deriving DecidableEq, Repr

/-- `entities.rs`: `ManufacturerProfile`.  Only the fields the RFQ command
flow reads (`name`, `contact_email`) plus the identifying fields are kept;
the catalog payload fields (`location` with `f64` coordinates, `media`,
`offerings`, ...) are never read by any operation verified here and are
elided from the embedding. -/
structure ManufacturerProfile where
  id : String
  tenant_id : String
  name : String
  contact_email : Option String
deriving DecidableEq, Repr

/-- `events.rs`: `EventAuthor`. -/
inductive EventAuthor where
  | Buyer
  | Manufacturer
  | System
deriving DecidableEq, Repr

/-- `events.rs`: `RfqEventBase` (shared, serde-flattened, base fields).
`by_` embeds the Rust field `by` (a Lean keyword); `event_type` embeds the
field serialized as `"type"`.  Event ids are uuid strings, embedded as
linearly ordered `Nat` (see the header comment). -/
structure RfqEventBase where
  id : Nat
  rfq_id : String
  ts : Time
  by_ : EventAuthor
  event_type : String
deriving DecidableEq, Repr

/-- `events.rs`: `MessageEvent`. -/
structure MessageEvent where
  base : RfqEventBase
  body : String
deriving DecidableEq, Repr

/-- `events.rs`: `StatusType`. -/
inductive StatusType where
  | RfqCreated
  | VendorViewed
  | VendorReplied
  | BuyerViewed
  | Closed
  | Archived
deriving DecidableEq, Repr

/-- `events.rs`: `StatusEvent`. -/
structure StatusEvent where
  base : RfqEventBase
  status : StatusType
  note : Option String
deriving DecidableEq, Repr

/-- `events.rs`: `AttachmentEvent`. -/
structure AttachmentEvent where
  base : RfqEventBase
  attachments : List AttachmentRef
deriving DecidableEq, Repr

/-- `events.rs`: the `RfqEvent` tagged union. -/
inductive RfqEvent where
  | Message (e : MessageEvent)
  | Status (e : StatusEvent)
  | Attachment (e : AttachmentEvent)
deriving DecidableEq, Repr

/-- `RfqEvent::id` (dispatch over the closed variant set). -/
def RfqEvent.id : RfqEvent → Nat
  | .Message e => e.base.id
  | .Status e => e.base.id
  | .Attachment e => e.base.id

/-- `RfqEvent::rfq_id`. -/
def RfqEvent.rfq_id : RfqEvent → String
  | .Message e => e.base.rfq_id
  | .Status e => e.base.rfq_id
  | .Attachment e => e.base.rfq_id

/-- `RfqEvent::timestamp`. -/
def RfqEvent.timestamp : RfqEvent → Time
  | .Message e => e.base.ts
  | .Status e => e.base.ts
  | .Attachment e => e.base.ts

/-- `RfqEvent::author`. -/
def RfqEvent.author : RfqEvent → EventAuthor
  | .Message e => e.base.by_
  | .Status e => e.base.by_
  | .Attachment e => e.base.by_

/-- `RfqEvent::new_message`; `id` and `ts` are the values produced by the
`Uuid::new_v4()` and `Utc::now()` calls inside the constructor. -/
def RfqEvent.new_message (rfq_id : String) (author : EventAuthor) (body : String)
    (id : Nat) (ts : Time) : RfqEvent :=
  .Message ⟨⟨id, rfq_id, ts, author, "message"⟩, body⟩

/-- `RfqEvent::new_status`. -/
def RfqEvent.new_status (rfq_id : String) (author : EventAuthor)
    (status : StatusType) (note : Option String) (id : Nat) (ts : Time) : RfqEvent :=
  .Status ⟨⟨id, rfq_id, ts, author, "status"⟩, status, note⟩

/-- `RfqEvent::new_attachment`. -/
def RfqEvent.new_attachment (rfq_id : String) (author : EventAuthor)
    (attachments : List AttachmentRef) (id : Nat) (ts : Time) : RfqEvent :=
  .Attachment ⟨⟨id, rfq_id, ts, author, "attachment"⟩, attachments⟩

/-! ## The blob store and the S3 repository (`infrastructure/src/s3.rs`)

The store offers exact-key get/put and ascending-key list-with-pagination.
An event object key is
`rfq/{rfq_id}/events/{ts formatted %Y-%m-%dT%H-%M-%SZ}-{event_id}.json`;
the timestamp part is fixed width, the uuid part is fixed width, so within
one RFQ the lexicographic key order is exactly the numeric order on
`(toSec ts, id)`, embedded below as `keyLe`.  An idempotency record is stored
at `idem/{sha256(key)}.json`; sha256 of the caller key is injective for any
realizable key set, so the record map is keyed by the raw caller key. -/

/-- One object under an RFQ's `events/` key space: the key components and
the stored blob, which either deserializes into an `RfqEvent` (`some e`) or
is corrupt (`none`). -/
structure EvEntry where
  rfq_id : String
  keySec : Nat
  keyId : Nat
  record : Option RfqEvent
deriving DecidableEq, Repr

/-- A stored idempotency record, mirroring the JSON object written by
`store_idempotency`; the fields are `Option` because `check_idempotency`
guards on their presence. -/
structure IdemRecord where
  body_hash : Option String
  response : Option String
deriving DecidableEq, Repr

/-- The private bucket's contents, split by key space.  `metas` and `indexes`
are association lists keyed by RFQ id (a put prepends, a get takes the first
match: last-write-wins, as for S3 `PutObject`). -/
structure Store where
  metas : List (String × RfqMeta)
  indexes : List (String × RfqIndex)
  events : List EvEntry
  idem : List (String × IdemRecord)
deriving DecidableEq, Repr

/-- Exact-key lookup in an association list (first match wins). -/
def lookup {α : Type} (l : List (String × α)) (k : String) : Option α :=
  (l.find? (fun p => p.1 = k)).map (fun p => p.2)

/-- `S3RfqRepository::save_rfq_meta`: put at `rfq/{id}/meta.json`. -/
def save_rfq_meta (st : Store) (rfq : RfqMeta) : Store :=
  { st with metas := (rfq.id, rfq) :: st.metas }

/-- `S3RfqRepository::get_rfq_meta`: get at `rfq/{id}/meta.json`; a missing
key is `none`, not an error. -/
def get_rfq_meta (st : Store) (id : RfqId) : Option RfqMeta :=
  lookup st.metas id.val

/-- `S3RfqRepository::save_rfq_index`: put at `rfq/{id}/index.json`. -/
def save_rfq_index (st : Store) (rfq_id : RfqId) (index : RfqIndex) : Store :=
  { st with indexes := (rfq_id.val, index) :: st.indexes }

/-- `S3RfqRepository::get_rfq_index`. -/
def get_rfq_index (st : Store) (id : RfqId) : Option RfqIndex :=
  lookup st.indexes id.val

/-- `S3RfqRepository::save_rfq_event`: put the serialized event at the key
derived from its second-truncated timestamp and its id. -/
def save_rfq_event (st : Store) (event : RfqEvent) : Store :=
  { st with events :=
      ⟨event.rfq_id, toSec event.timestamp, event.id, some event⟩ :: st.events }

/-- Lexicographic order on event object keys within one RFQ's key space:
first the (fixed-width rendered) second-truncated timestamp, then the id. -/
def keyLe (a b : EvEntry) : Prop :=
  a.keySec < b.keySec ∨ (a.keySec = b.keySec ∧ a.keyId ≤ b.keyId)

instance : DecidableRel keyLe := fun a b =>
  inferInstanceAs (Decidable (a.keySec < b.keySec ∨ (a.keySec = b.keySec ∧ a.keyId ≤ b.keyId)))

instance : IsTotal EvEntry keyLe where
  total a b := by
    unfold keyLe
    rcases Nat.lt_trichotomy a.keySec b.keySec with h | h | h
    · exact Or.inl (Or.inl h)
    · rcases Nat.le_total a.keyId b.keyId with h2 | h2
      · exact Or.inl (Or.inr ⟨h, h2⟩)
      · exact Or.inr (Or.inr ⟨h.symm, h2⟩)
    · exact Or.inr (Or.inl h)

instance : IsTrans EvEntry keyLe where
  trans a b c hab hbc := by
    unfold keyLe at *
    rcases hab with h1 | ⟨h1, h1i⟩ <;> rcases hbc with h2 | ⟨h2, h2i⟩
    · exact Or.inl (h1.trans h2)
    · exact Or.inl (h2 ▸ h1)
    · exact Or.inl (h1 ▸ h2)
    · exact Or.inr ⟨h1.trans h2, h1i.trans h2i⟩

/-- The `start_after` bound for `since`: the request passes
`rfq/{id}/events/{since formatted to seconds}-` as `start_after`, and S3
returns keys strictly greater.  An event key extends
`{rendered sec}-` with a nonempty suffix, so `key > start_after` holds
exactly when the event's key second is at least the bound's second. -/
def afterBound (startAfterSec : Option Nat) (en : EvEntry) : Bool :=
  match startAfterSec with
  | none => true
  | some s => s ≤ en.keySec

/-- `ListObjectsV2(prefix, start_after, max_keys)` over the events key space:
S3 returns the first `maxKeys` keys in ascending key order among the keys
with the RFQ's events key space as prefix that are beyond `start_after`. -/
def listKeys (st : Store) (rid : String) (startAfterSec : Option Nat)
    (maxKeys : Nat) : List EvEntry :=
  (((st.events.filter (fun en => en.rfq_id = rid && afterBound startAfterSec en)
    ).insertionSort keyLe).take maxKeys)

/-- The per-object fetch loop of `list_rfq_events`: get each listed object
and deserialize it; the first record that fails to deserialize makes the
whole loop return `Internal` (the loop body applies the `?` operator to the
`serde_json::from_slice` result). -/
def deserializeAll : List EvEntry → Except DomainError (List RfqEvent)
  | [] => .ok []
  | en :: rest =>
    match en.record with
    | none => .error (.Internal "Failed to deserialize event")
    | some e => (deserializeAll rest).map (fun l => e :: l)

/-- The final in-memory comparator of `list_rfq_events`:
`a.timestamp().cmp(&b.timestamp()).then_with(|| a.id().cmp(b.id()))`,
i.e. non-decreasing `(timestamp, id)` with the id as tie-break. -/
def eventLe (a b : RfqEvent) : Prop :=
  a.timestamp < b.timestamp ∨ (a.timestamp = b.timestamp ∧ a.id ≤ b.id)

instance : DecidableRel eventLe := fun a b =>
  inferInstanceAs (Decidable (a.timestamp < b.timestamp ∨ (a.timestamp = b.timestamp ∧ a.id ≤ b.id)))

instance : IsTotal RfqEvent eventLe where
  total a b := by
    unfold eventLe
    rcases Nat.lt_trichotomy a.timestamp b.timestamp with h | h | h
    · exact Or.inl (Or.inl h)
    · rcases Nat.le_total a.id b.id with h2 | h2
      · exact Or.inl (Or.inr ⟨h, h2⟩)
      · exact Or.inr (Or.inr ⟨h.symm, h2⟩)
    · exact Or.inr (Or.inl h)

instance : IsTrans RfqEvent eventLe where
  trans a b c hab hbc := by
    unfold eventLe at *
    rcases hab with h1 | ⟨h1, h1i⟩ <;> rcases hbc with h2 | ⟨h2, h2i⟩
    · exact Or.inl (h1.trans h2)
    · exact Or.inl (h2 ▸ h1)
    · exact Or.inl (h1 ▸ h2)
    · exact Or.inr ⟨h1.trans h2, h1i.trans h2i⟩

/-- `events.sort_by(timestamp then id)` — a stable sort with the `eventLe`
comparator (Rust's stable `sort_by` and insertion sort agree: both return
the unique `eventLe`-sorted stable permutation). -/
def sortEvents (l : List RfqEvent) : List RfqEvent :=
  l.insertionSort eventLe

/-- What `list_rfq_events` does with a fetched batch, whatever order the
store handed it back in: deserialize every object (failing on the first
corrupt one) and defensively re-sort by `(timestamp, id)`. -/
def processFetched (fetched : List EvEntry) : Except DomainError (List RfqEvent) :=
  (deserializeAll fetched).map sortEvents

/-- `S3RfqRepository::list_rfq_events`: clamp the limit
(`limit.unwrap_or(50).min(200)`), list keys beyond the `since` bound, fetch
and deserialize each, re-sort. -/
def list_rfq_events (st : Store) (rfq_id : RfqId) (since : Option Time)
    (limit : Option Nat) : Except DomainError (List RfqEvent) :=
  let lim := min (limit.getD 50) 200
  processFetched (listKeys st rfq_id.val (since.map toSec) lim)

/-- `S3IdempotencyService::check_idempotency`: read the record for the key;
absent key is `ok none`; a record carrying both fields replays the stored
response on a hash match and signals `Conflict` on a mismatch; a record
missing either field falls through to `ok none`. -/
def check_idempotency (st : Store) (key body_hash : String) :
    Except DomainError (Option String) :=
  match lookup st.idem key with
  | none => .ok none
  | some record =>
    match record.body_hash, record.response with
    | some stored_hash, some response =>
      if stored_hash = body_hash then .ok (some response)
      else .error (.Conflict "Idempotency key reused with different body")
    | _, _ => .ok none

/-- `S3IdempotencyService::store_idempotency`: put the record (both fields
always present) at the key's slot. -/
def store_idempotency (st : Store) (key body_hash response : String) : Store :=
  { st with idem := (key, ⟨some body_hash, some response⟩) :: st.idem }

/-! ## DTOs (`application/src/dto.rs`) -/

/-- `ContactDto`. -/
structure ContactDto where
  email : String
  name : Option String
deriving DecidableEq, Repr

/-- `AttachmentDto`. -/
structure AttachmentDto where
  upload_key : String
  file_name : String
  content_type : String
  size_bytes : Nat
deriving DecidableEq, Repr

/-- `CreateRfqRequest`. -/
structure CreateRfqRequest where
  tenant_id : String
  manufacturer_id : String
  buyer : ContactDto
  subject : String
  body : String
  attachments : Option (List AttachmentDto)
deriving DecidableEq, Repr

/-- `CreateRfqResponse`; `last_event_ts` is an RFC-3339 rendering of the
instant, kept at type `Time` (the rendering is injective, see header). -/
structure CreateRfqResponse where
  id : String
  last_event_ts : Time
deriving DecidableEq, Repr

/-- `PostMessageRequest` (`by` field embedded as `by_`). -/
structure PostMessageRequest where
  by_ : String
  body : String
  attachments : Option (List AttachmentDto)
deriving DecidableEq, Repr

/-- `PostMessageResponse`. -/
structure PostMessageResponse where
  ts : Time
deriving DecidableEq, Repr

/-- `RfqEventDto`: the wire shape the listing query returns.  The `ts` field
is the RFC-3339 rendering, kept at type `Time`; `by_` and `status` are the
strings the service computes with `format` + `to_lowercase`. -/
inductive RfqEventDto where
  | Message (id : Nat) (rfq_id : String) (ts : Time) (by_ : String) (body : String)
  | Status (id : Nat) (rfq_id : String) (ts : Time) (by_ : String)
      (status : String) (note : Option String)
  | Attachment (id : Nat) (rfq_id : String) (ts : Time) (by_ : String)
      (attachments : List AttachmentRef)
deriving DecidableEq, Repr

/-- `ListEventsResponse`. -/
structure ListEventsResponse where
  items : List RfqEventDto
  next_since : Option Time
deriving DecidableEq, Repr

/-! ## The RFQ service (`application/src/services.rs`) -/

/-- The collaborators `RfqService` is constructed with, minus the RFQ
repository (which acts on the explicit `Store`): the manufacturer lookup
(read-only in this flow, so a plain association list), the email sender
(its outcome per call is part of the environment), and the serialization
plumbing around the idempotency cache (`serde_json::to_string` /
`from_str` on the response DTOs, and the sha256 body hashes, kept
abstract — the service only moves these strings around). -/
structure Env where
  manufacturers : List (String × ManufacturerProfile)
  sendCreated : RfqMeta → Except DomainError Unit
  sendMessage : RfqMeta → RfqEvent → Except DomainError Unit
  hashCreate : CreateRfqRequest → String
  hashMessage : PostMessageRequest → String
  parseCreateResp : String → Except DomainError CreateRfqResponse
  parseMessageResp : String → Except DomainError PostMessageResponse
  serializeCreateResp : CreateRfqResponse → String
  serializeMessageResp : PostMessageResponse → String

/-- `ManufacturerRepository::get_manufacturer` (S3-backed, read path only). -/
def get_manufacturer (env : Env) (id : ManufacturerId) : Option ManufacturerProfile :=
  lookup env.manufacturers id.val

/-- The generated values consumed by one `create_rfq` run, one field per
generator call, in source order: `RfqId::generate()`, the `Utc::now()` of
line 58, one `Uuid::new_v4()` per processed attachment, and the
`Uuid::new_v4()` / `Utc::now()` pairs inside the three event constructors. -/
structure CreateGen where
  rfqId : String
  now : Time
  attId : Nat → String
  statusEvId : Nat
  statusEvTs : Time
  msgEvId : Nat
  msgEvTs : Time
  attEvId : Nat
  attEvTs : Time

/-- The attachment-processing loop of `create_rfq` (lines 67–84): validate
each DTO's content type and size in order, failing on the first violation,
and build the `AttachmentRef`s (fresh uuid per ref). -/
def processAttachmentList (attId : Nat → String) :
    List AttachmentDto → Nat → Except DomainError (List AttachmentRef)
  | [], _ => .ok []
  | d :: rest, i =>
    (ContentType.new d.content_type).bind fun ct =>
      (FileSize.new d.size_bytes).bind fun fs =>
        (processAttachmentList attId rest (i + 1)).map fun tail =>
          ⟨attId i, d.file_name, ct.val, fs.val, d.upload_key⟩ :: tail

/-- `if let Some(attachment_dtos) = request.attachments` — an absent list
yields `none`, a present list (empty included) is processed into `some`. -/
def processAttachments (attId : Nat → String) :
    Option (List AttachmentDto) → Except DomainError (Option (List AttachmentRef))
  | none => .ok none
  | some dtos => (processAttachmentList attId dtos 0).map some

/-- The idempotency replay check shared by both commands (`create_rfq` lines
38–44, `post_message` lines 203–209): with a key, check the store; a cached
response is deserialized and returned for replay. -/
def replayCheck {α : Type} (st : Store) (idempotency_key : Option String)
    (body_hash : String) (parse : String → Except DomainError α) :
    Except DomainError (Option α) :=
  match idempotency_key with
  | none => .ok none
  | some key =>
    (check_idempotency st key body_hash).bind fun cached =>
      match cached with
      | some cached_response => (parse cached_response).map some
      | none => .ok none

/-- `RfqService::create_rfq` (`services.rs` lines 36–169), step for step:
replay check, scalar validation, manufacturer lookup, meta construction and
save, `Status{RfqCreated}` then `Message` events, conditional `Attachment`
event, index upsert with `count = 3` iff `rfq_meta.attachments.is_some()`,
notification (the `?` on line 153 propagates its failure), response, and
idempotency store.  Returns the store as left by the performed writes
together with the command result. -/
def create_rfq (env : Env) (g : CreateGen) (st : Store)
    (request : CreateRfqRequest) (idempotency_key : Option String) :
    Store × Except DomainError CreateRfqResponse :=
  match replayCheck st idempotency_key (env.hashCreate request) env.parseCreateResp with
  | .error e => (st, .error e)
  | .ok (some cached) => (st, .ok cached)
  | .ok none =>
  match TenantId.new request.tenant_id with
  | .error e => (st, .error e)
  | .ok tenant_id =>
  match ManufacturerId.new request.manufacturer_id with
  | .error e => (st, .error e)
  | .ok manufacturer_id =>
  match Email.new request.buyer.email with
  | .error e => (st, .error e)
  | .ok buyer_email =>
  match MessageBody.new request.body with
  | .error e => (st, .error e)
  | .ok message_body =>
  match get_manufacturer env manufacturer_id with
  | none => (st, .error (.NotFound "Manufacturer not found"))
  | some manufacturer =>
  let rfq_id := g.rfqId
  let now := g.now
  let buyer : Contact := ⟨buyer_email.val, request.buyer.name⟩
  match processAttachments g.attId request.attachments with
  | .error e => (st, .error e)
  | .ok attachments =>
  let participants : List Participant :=
    [⟨.Buyer, buyer.email, buyer.name⟩,
     ⟨.Manufacturer, manufacturer.contact_email.getD "", some manufacturer.name⟩]
  let rfq_meta : RfqMeta :=
    ⟨rfq_id, tenant_id.val, manufacturer_id.val, buyer, request.subject,
     .Open, now, now, participants, attachments⟩
  let st := save_rfq_meta st rfq_meta
  let status_event := RfqEvent.new_status rfq_id .System .RfqCreated none
    g.statusEvId g.statusEvTs
  let message_event := RfqEvent.new_message rfq_id .Buyer message_body.val
    g.msgEvId g.msgEvTs
  let st := save_rfq_event st status_event
  let st := save_rfq_event st message_event
  let st :=
    match attachments with
    | some atts =>
      save_rfq_event st (RfqEvent.new_attachment rfq_id .Buyer atts g.attEvId g.attEvTs)
    | none => st
  let index : RfqIndex := ⟨now, if rfq_meta.attachments.isSome then 3 else 2⟩
  let st := save_rfq_index st ⟨rfq_id⟩ index
  match env.sendCreated rfq_meta with
  | .error e => (st, .error e)
  | .ok _ =>
  let response : CreateRfqResponse := ⟨rfq_id, now⟩
  match idempotency_key with
  | none => (st, .ok response)
  | some key =>
    let st := store_idempotency st key (env.hashCreate request)
      (env.serializeCreateResp response)
    (st, .ok response)

/-- `format("{:?}", author).to_lowercase()`: the `Debug` derive prints the
variant name, lowercased. -/
def authorDebugLower : EventAuthor → String
  | .Buyer => "buyer"
  | .Manufacturer => "manufacturer"
  | .System => "system"

/-- `format("{:?}", status).to_lowercase()`: the `Debug` derive prints the
camel-cased variant name (`RfqCreated`, `VendorViewed`, ...), and
lowercasing it yields `"rfqcreated"`, `"vendorviewed"`, ... — with **no**
underscore, unlike the `snake_case` serde rename used for the stored event
JSON. -/
def statusDebugLower : StatusType → String
  | .RfqCreated => "rfqcreated"
  | .VendorViewed => "vendorviewed"
  | .VendorReplied => "vendorreplied"
  | .BuyerViewed => "buyerviewed"
  | .Closed => "closed"
  | .Archived => "archived"

/-- `RfqService::event_to_dto` (lines 273–298). -/
def event_to_dto : RfqEvent → RfqEventDto
  | .Message e =>
    .Message e.base.id e.base.rfq_id e.base.ts (authorDebugLower e.base.by_) e.body
  | .Status e =>
    .Status e.base.id e.base.rfq_id e.base.ts (authorDebugLower e.base.by_)
      (statusDebugLower e.status) e.note
  | .Attachment e =>
    .Attachment e.base.id e.base.rfq_id e.base.ts (authorDebugLower e.base.by_)
      e.attachments

/-- `RfqService::list_events` (lines 176–197): validate the id, parse
`since` (rendering and parsing compose to the identity, so the parameter is
the parsed instant), delegate to the repository, map to DTOs, and return the
last returned event's timestamp as `next_since`. -/
def list_events (st : Store) (rfq_id : String) (since : Option Time)
    (limit : Option Nat) : Except DomainError ListEventsResponse :=
  match RfqId.new rfq_id with
  | .error e => .error e
  | .ok rid =>
    (list_rfq_events st rid since limit).map fun events =>
      ⟨events.map event_to_dto, (events.getLast?).map RfqEvent.timestamp⟩

/-- `RfqService::get_rfq` (lines 171–174). -/
def get_rfq (st : Store) (rfq_id : String) : Except DomainError (Option RfqMeta) :=
  (RfqId.new rfq_id).map fun rid => get_rfq_meta st rid

/-- The generated values consumed by one `post_message` run: the
`Uuid::new_v4()` / `Utc::now()` pair inside `RfqEvent::new_message`. -/
structure MsgGen where
  msgEvId : Nat
  msgEvTs : Time

/-- `RfqService::post_message` (`services.rs` lines 199–259), step for step:
id validation, replay check, body validation, RFQ existence check, author
parse, `Message` event append, read-modify-write of the index (defaulting to
a zero count), notification (the `?` on line 244 propagates its failure),
response, idempotency store.  The stored `RfqMeta` is never written. -/
def post_message (env : Env) (g : MsgGen) (st : Store) (rfq_id : String)
    (request : PostMessageRequest) (idempotency_key : Option String) :
    Store × Except DomainError PostMessageResponse :=
  match RfqId.new rfq_id with
  | .error e => (st, .error e)
  | .ok rid =>
  match replayCheck st idempotency_key (env.hashMessage request) env.parseMessageResp with
  | .error e => (st, .error e)
  | .ok (some cached) => (st, .ok cached)
  | .ok none =>
  match MessageBody.new request.body with
  | .error e => (st, .error e)
  | .ok message_body =>
  match get_rfq_meta st rid with
  | none => (st, .error (.NotFound "RFQ not found"))
  | some rfq_meta =>
  match (if request.by_ = "buyer" then .ok EventAuthor.Buyer
         else if request.by_ = "manufacturer" then .ok EventAuthor.Manufacturer
         else .error (DomainError.ValidationFailed "Invalid author role") :
           Except DomainError EventAuthor) with
  | .error e => (st, .error e)
  | .ok author =>
  let message_event := RfqEvent.new_message rid.val author message_body.val
    g.msgEvId g.msgEvTs
  let timestamp := message_event.timestamp
  let st := save_rfq_event st message_event
  let index0 := (get_rfq_index st rid).getD ⟨timestamp, 0⟩
  let index : RfqIndex := ⟨timestamp, index0.count + 1⟩
  let st := save_rfq_index st rid index
  match env.sendMessage rfq_meta message_event with
  | .error e => (st, .error e)
  | .ok _ =>
  let response : PostMessageResponse := ⟨timestamp⟩
  match idempotency_key with
  | none => (st, .ok response)
  | some key =>
    let st := store_idempotency st key (env.hashMessage request)
      (env.serializeMessageResp response)
    (st, .ok response)

/-! ## Concrete fixtures

A concrete environment and request (the §8 scenario of the design: tenant
`t1`, manufacturer `mfg_ABC12345`, buyer `buyer@x.com`, subject
"Need 500 units", body "Please quote."), used to instantiate witnesses and
counterexamples. -/

/-- A stored manufacturer profile for `mfg_ABC12345`. -/
def testManufacturer : ManufacturerProfile :=
  ⟨"mfg_ABC12345", "t1", "Acme Metals", some "sales@acme.com"⟩

/-- A concrete environment: one manufacturer, notifications succeed, and
fixed (distinct) body hashes for the two request shapes. -/
def testEnv : Env where
  manufacturers := [("mfg_ABC12345", testManufacturer)]
  sendCreated := fun _ => .ok ()
  sendMessage := fun _ _ => .ok ()
  hashCreate := fun _ => "hash-create"
  hashMessage := fun _ => "hash-message"
  parseCreateResp := fun _ => .error (.Internal "Failed to deserialize cached response")
  parseMessageResp := fun _ => .error (.Internal "Failed to deserialize cached response")
  serializeCreateResp := fun _ => "serialized-create-response"
  serializeMessageResp := fun _ => "serialized-message-response"

/-- Generated values for one `create_rfq` run: RFQ id `r_AAAAAAAA`, creation
instant 0, and strictly increasing event stamps (ids 1,2,3 at instants
1,2,3 ns). -/
def createGen : CreateGen :=
  ⟨"r_AAAAAAAA", 0, fun i => toString i, 1, 1, 2, 2, 3, 3⟩

/-- The §8 scenario request, without attachments. -/
def createReq : CreateRfqRequest :=
  ⟨"t1", "mfg_ABC12345", ⟨"buyer@x.com", none⟩, "Need 500 units",
   "Please quote.", none⟩

/-- The empty store. -/
def emptyStore : Store := ⟨[], [], [], []⟩

/-- The store left by the scenario `create_rfq` run. -/
def createdStore : Store :=
  (create_rfq testEnv createGen emptyStore createReq none).1

/-- A follow-up message posted by the manufacturer (uuid 9, instant 5 ns). -/
def postReq : PostMessageRequest := ⟨"manufacturer", "We can do it.", none⟩

/-- The store after the scenario `create_rfq` followed by a `post_message`. -/
def postedStore : Store :=
  (post_message testEnv ⟨9, 5⟩ createdStore "r_AAAAAAAA" postReq none).1

/-- The scenario request with an **empty** (but present) attachments list. -/
def createReqEmptyAtt : CreateRfqRequest := { createReq with attachments := some ([]) }

/-- The store left by `create_rfq` on the empty-attachments-list request. -/
def createdStoreEmptyAtt : Store :=
  (create_rfq testEnv createGen emptyStore createReqEmptyAtt none).1

/-- `testEnv` with a failing notification sender. -/
def failEnv : Env :=
  { testEnv with
    sendCreated := fun _ => .error (.Internal "Failed to send email")
    sendMessage := fun _ _ => .error (.Internal "Failed to send email") }

/-- A committed event used for witness instantiations. -/
def wEvent : RfqEvent := RfqEvent.new_message "r_W" .Buyer "hi" 1 2

/-- A store holding one good and one corrupt record under the same RFQ. -/
def corruptStore : Store :=
  ⟨[], [], [⟨"r_W", 0, 1, some wEvent⟩, ⟨"r_W", 0, 7, none⟩], []⟩

/-- A store holding a single committed event at instant 5 s. -/
def store6 : Store :=
  save_rfq_event emptyStore (RfqEvent.new_message "r_B" .Buyer "hello" 1 (5 * nanosPerSec))

/-- A store holding one idempotency record. -/
def idemStore : Store := ⟨[], [], [], [("key-1", ⟨some "other-hash", some "cached"⟩)]⟩

/-- 8000 copies of the two-byte character `'é'`: an 8000-**character**
message body of 16000 UTF-8 bytes. -/
def bodyMulti : String := ⟨List.replicate 8000 'é'⟩

/-- The stored objects of one RFQ's event key space. -/
def eventsFor (st : Store) (rid : String) : List EvEntry :=
  st.events.filter (fun en => en.rfq_id = rid)

/-! ## Helper lemmas -/

/-- A successful fetch loop yields one event per listed object. -/
theorem deserializeAll_ok_length :
    ∀ {l : List EvEntry} {evs : List RfqEvent},
      deserializeAll l = .ok evs → evs.length = l.length := by
  intro l
  induction l with
  | nil => intro evs h; simp only [deserializeAll] at h; cases h; rfl
  | cons en rest ih =>
    intro evs h
    simp only [deserializeAll] at h
    cases hrec : en.record with
    | none => rw [hrec] at h; cases h
    | some e =>
      rw [hrec] at h
      cases hrest : deserializeAll rest with
      | error _ => rw [hrest] at h; cases h
      | ok tail =>
        rw [hrest] at h
        cases h
        simp [ih hrest]

/-- A corrupt object among the listed ones makes the fetch loop fail with
`Internal` (the fixed deserialization failure of the embedding). -/
theorem deserializeAll_error_of_corrupt :
    ∀ {l : List EvEntry}, (∃ en ∈ l, en.record = none) →
      deserializeAll l = .error (.Internal "Failed to deserialize event") := by
  intro l
  induction l with
  | nil => rintro ⟨en, h, _⟩; cases h
  | cons hd rest ih =>
    rintro ⟨en, hmem, hcor⟩
    rcases List.mem_cons.mp hmem with rfl | hmem
    · simp [deserializeAll, hcor]
    · simp only [deserializeAll]
      cases hrec : hd.record with
      | none => rfl
      | some e => rw [ih ⟨en, hmem, hcor⟩]; rfl

/-- A successful fetch loop pairs listed objects with the events they
deserialize to, positionally. -/
theorem deserializeAll_forall2 :
    ∀ {l : List EvEntry} {evs : List RfqEvent}, deserializeAll l = .ok evs →
      List.Forall₂ (fun en ev => en.record = some ev) l evs := by
  intro l
  induction l with
  | nil => intro evs h; simp only [deserializeAll] at h; cases h; exact .nil
  | cons en rest ih =>
    intro evs h
    simp only [deserializeAll] at h
    cases hrec : en.record with
    | none => rw [hrec] at h; cases h
    | some e =>
      rw [hrec] at h
      cases hrest : deserializeAll rest with
      | error _ => rw [hrest] at h; cases h
      | ok tail => rw [hrest] at h; cases h; exact .cons hrec (ih hrest)

/-- Every character occupies at least one UTF-8 byte, so a string has at
least as many bytes as characters. -/
theorem length_le_rustLen (s : String) : s.data.length ≤ rustLen s := by
  unfold rustLen
  induction s.data with
  | nil => simp
  | cons c cs ih =>
    simp only [List.map_cons, List.sum_cons, List.length_cons]
    have := Char.utf8Size_pos c
    omega

/-- `List.contains` on a repeated character differing from the sought one. -/
theorem contains_replicate_ne {a c : Char} (h : ¬ a = c) :
    ∀ n, (List.replicate n c).contains a = false := by
  intro n
  induction n with
  | zero => rfl
  | succ k ih =>
    rw [List.replicate_succ]
    simp only [List.contains_cons, ih, Bool.or_false]
    exact beq_eq_false_iff_ne.mpr h

/-! ## Claims -/

/-- C4.  For every call to `list_rfq_events`, regardless of the order in
which the underlying store returns the fetched records (the batch is
universally quantified), the returned list is sorted in non-decreasing
`(timestamp, id)` order, the event id breaking ties between equal
timestamps (`eventLe`). -/
theorem c4_list_events_sorted :
    (∀ (fetched : List EvEntry) (l : List RfqEvent),
       processFetched fetched = .ok l → l.Sorted eventLe) ∧
    (∀ (st : Store) (rid : RfqId) (since : Option Time) (limit : Option Nat)
       (l : List RfqEvent),
       list_rfq_events st rid since limit = .ok l → l.Sorted eventLe) := by
  have base : ∀ (fetched : List EvEntry) (l : List RfqEvent),
      processFetched fetched = .ok l → l.Sorted eventLe := by
    intro fetched l h
    unfold processFetched at h
    cases hdes : deserializeAll fetched with
    | error _ => rw [hdes] at h; cases h
    | ok evs =>
      rw [hdes] at h
      cases h
      exact List.sorted_insertionSort eventLe evs
  exact ⟨base, fun st rid since limit l h => base _ l h⟩

/-- C4 witness: the pipeline on a concrete two-object batch handed back in
reversed order. -/
theorem c4_list_events_sorted_witness :
    List.Sorted eventLe [RfqEvent.new_message "r_W" .Buyer "hi" 1 2, wEvent] :=
  c4_list_events_sorted.1
    [⟨"r_W", 0, 1, some wEvent⟩, ⟨"r_W", 0, 1, some (RfqEvent.new_message "r_W" .Buyer "hi" 1 2)⟩]
    [RfqEvent.new_message "r_W" .Buyer "hi" 1 2, wEvent] (by decide)

/-- C10.  A `list_rfq_events` call with `limit = None` requests exactly 50
keys from the store (`limit.unwrap_or(50).min(200) = 50`, the unstated
default page size, not the 200 cap) and hence returns at most 50 events
even when more exist. -/
theorem c10_default_limit_50 :
    (∀ (st : Store) (rid : RfqId) (since : Option Time),
       list_rfq_events st rid since none =
         processFetched (listKeys st rid.val (since.map toSec) 50)) ∧
    (∀ (st : Store) (rid : RfqId) (since : Option Time) (l : List RfqEvent),
       list_rfq_events st rid since none = .ok l → l.length ≤ 50) := by
  constructor
  · intro st rid since; rfl
  · intro st rid since l h
    unfold list_rfq_events at h
    simp only [Option.getD_none] at h
    cases hdes : deserializeAll (listKeys st rid.val (since.map toSec) (min 50 200)) with
    | error _ => unfold processFetched at h; rw [hdes] at h; cases h
    | ok evs =>
      unfold processFetched at h
      rw [hdes] at h
      cases h
      calc (sortEvents evs).length
          = evs.length := List.length_insertionSort eventLe evs
        _ = (listKeys st rid.val (since.map toSec) (min 50 200)).length :=
            deserializeAll_ok_length hdes
        _ ≤ min 50 200 := by
            unfold listKeys
            exact (List.length_take _ _).trans_le (Nat.min_le_left _ _)

/-- C10 witness: a no-limit listing over the one-event store. -/
theorem c10_default_limit_50_witness :
    list_rfq_events store6 ⟨"r_B"⟩ none none =
      processFetched (listKeys store6 "r_B" none 50) ∧
    [RfqEvent.new_message "r_B" .Buyer "hello" 1 (5 * nanosPerSec)].length ≤ 50 :=
  ⟨c10_default_limit_50.1 store6 ⟨"r_B"⟩ none,
   c10_default_limit_50.2 store6 ⟨"r_B"⟩ none _ (by decide)⟩

/-- C3 counterexample: `corruptStore` holds one good and one corrupt record
under `r_W`; the listing call returns an `Internal` error instead of
skipping the corrupt record and returning the good event. -/
theorem c3_counterexample :
    list_rfq_events corruptStore ⟨"r_W"⟩ none none =
      .error (.Internal "Failed to deserialize event") ∧
    (⟨"r_W", 0, 1, some wEvent⟩ : EvEntry) ∈ corruptStore.events := by
  constructor
  · decide
  · decide

/-- C3 amended: a record under the RFQ's event key space that fails to
deserialize and falls inside the fetched page makes the **whole**
`list_rfq_events` call return an `Internal` error (the fetch loop applies
`?` to each deserialization); nothing is skipped. -/
theorem c3_amended (st : Store) (rid : RfqId) (since : Option Time)
    (limit : Option Nat)
    (h : ∃ en ∈ listKeys st rid.val (since.map toSec) (min (limit.getD 50) 200),
           en.record = none) :
    list_rfq_events st rid since limit =
      .error (.Internal "Failed to deserialize event") := by
  show Except.map sortEvents
      (deserializeAll (listKeys st rid.val (since.map toSec) (min (limit.getD 50) 200))) = _
  rw [deserializeAll_error_of_corrupt h]
  rfl

/-- C3 amended witness: the corrupt record of `corruptStore` is fetched, and
the call fails. -/
theorem c3_amended_witness :
    list_rfq_events corruptStore ⟨"r_W"⟩ none none =
      .error (.Internal "Failed to deserialize event") :=
  c3_amended corruptStore ⟨"r_W"⟩ none none
    ⟨⟨"r_W", 0, 7, none⟩, by decide, rfl⟩

/-- C5.  A stored idempotency record whose body hash differs from the hash
of the incoming request makes `check_idempotency` return `Conflict` (not a
cached response, not `None`), and the `create_rfq` command issued under the
same key with the differing body therefore fails with that `Conflict`. -/
theorem c5_idempotency_conflict (st : Store) (key h0 resp : String) (env : Env)
    (g : CreateGen) (request : CreateRfqRequest)
    (hrec : lookup st.idem key = some ⟨some h0, some resp⟩)
    (hne : env.hashCreate request ≠ h0) :
    check_idempotency st key (env.hashCreate request) =
      .error (.Conflict "Idempotency key reused with different body") ∧
    (create_rfq env g st request (some key)).2 =
      .error (.Conflict "Idempotency key reused with different body") := by
  have hne2 : ¬ h0 = env.hashCreate request := fun h => hne h.symm
  have hchk : check_idempotency st key (env.hashCreate request) =
      .error (.Conflict "Idempotency key reused with different body") := by
    unfold check_idempotency
    rw [hrec]
    simp [hne2]
  refine ⟨hchk, ?_⟩
  simp only [create_rfq, replayCheck, hchk]
  rfl

/-- C5 witness: the stored record of `idemStore` carries hash `other-hash`;
the scenario request hashes to `hash-create`, so the second command
conflicts. -/
theorem c5_idempotency_conflict_witness :
    check_idempotency idemStore "key-1" (testEnv.hashCreate createReq) =
      .error (.Conflict "Idempotency key reused with different body") ∧
    (create_rfq testEnv createGen idemStore createReq (some "key-1")).2 =
      .error (.Conflict "Idempotency key reused with different body") :=
  c5_idempotency_conflict idemStore "key-1" "other-hash" "cached" testEnv
    createGen createReq (by decide) (by decide)

/-- C9 counterexample: `bodyMulti` has exactly 8000 **characters** and no
HTML-tag pair, yet `MessageBody::new` rejects it, because the length check
counts UTF-8 **bytes** (`String::len`), and `bodyMulti` occupies 16000. -/
theorem c9_counterexample :
    bodyMulti.data.length = 8000 ∧
    bodyMulti.data.contains '<' = false ∧
    bodyMulti.data.contains '>' = false ∧
    (MessageBody.new bodyMulti).isOk = false ∧
    rustLen bodyMulti = 16000 := by
  have hdata : bodyMulti.data = List.replicate 8000 'é' := rfl
  have hlen : rustLen bodyMulti = 16000 := by
    unfold rustLen
    rw [hdata, List.map_replicate]
    have : ('é').utf8Size = 2 := by decide
    rw [this, List.sum_replicate, smul_eq_mul]
  refine ⟨?_, ?_, ?_, ?_, hlen⟩
  · rw [hdata, List.length_replicate]
  · rw [hdata]; exact contains_replicate_ne (by decide) 8000
  · rw [hdata]; exact contains_replicate_ne (by decide) 8000
  · unfold MessageBody.new
    rw [if_neg, if_pos]
    · rfl
    · rw [hlen]; unfold MessageBody.maxLength; omega
    · rw [hdata]; simp

/-- C9 amended: `MessageBody::new` fails on the empty string; it succeeds
for every body of exactly 8000 UTF-8 **bytes** that contains no HTML-tag
pair (for pure-ASCII bodies, 8000 bytes = 8000 characters, matching the
spec's test vector); and it fails for every body of 8001 characters (8001
characters occupy at least 8001 bytes). -/
theorem c9_amended :
    (MessageBody.new ⟨[]⟩ =
      .error (.ValidationFailed "Message body cannot be empty")) ∧
    (∀ s : String, rustLen s = 8000 →
       (s.data.contains '<' && s.data.contains '>') = false →
       (MessageBody.new s).isOk = true) ∧
    (∀ s : String, s.data.length = 8001 → (MessageBody.new s).isOk = false) := by
  refine ⟨rfl, ?_, ?_⟩
  · intro s hlen htag
    have hne : s.data.isEmpty = false := by
      cases hd : s.data with
      | nil =>
        exfalso
        unfold rustLen at hlen
        rw [hd] at hlen
        simp at hlen
      | cons _ _ => rfl
    unfold MessageBody.new
    rw [hne]
    rw [if_neg (by simp), if_neg, if_neg]
    · rfl
    · rw [htag]; simp
    · rw [hlen]; unfold MessageBody.maxLength; omega
  · intro s hlen
    have hbytes : 8001 ≤ rustLen s := hlen ▸ length_le_rustLen s
    have hne : s.data.isEmpty = false := by
      cases hd : s.data with
      | nil => rw [hd] at hlen; simp at hlen
      | cons _ _ => rfl
    unfold MessageBody.new
    rw [hne]
    rw [if_neg (by simp), if_pos]
    · rfl
    · unfold MessageBody.maxLength; omega

/-- C9 amended witness: 8000 ASCII characters pass, 8001 fail, and the
empty string fails. -/
theorem c9_amended_witness :
    (MessageBody.new ⟨[]⟩ =
      .error (.ValidationFailed "Message body cannot be empty")) ∧
    (MessageBody.new ⟨List.replicate 8000 'a'⟩).isOk = true ∧
    (MessageBody.new ⟨List.replicate 8001 'a'⟩).isOk = false := by
  refine ⟨c9_amended.1, ?_, ?_⟩
  · refine c9_amended.2.1 ⟨List.replicate 8000 'a'⟩ ?_ ?_
    · unfold rustLen
      show (List.map Char.utf8Size (List.replicate 8000 'a')).sum = 8000
      rw [List.map_replicate]
      have : ('a').utf8Size = 1 := by decide
      rw [this, List.sum_replicate, smul_eq_mul]
    · show ((List.replicate 8000 'a').contains '<' && (List.replicate 8000 'a').contains '>') = false
      rw [contains_replicate_ne (by decide) 8000]
      rfl
  · refine c9_amended.2.2 ⟨List.replicate 8001 'a'⟩ ?_
    show (List.replicate 8001 'a').length = 8001
    exact List.length_replicate 8001 'a'

/-- C2 counterexample: with every repository write succeeding (writes in
this embedding always persist) and the notification sender failing,
`create_rfq` and `post_message` both return the sender's error instead of
their success responses — the `?` on `services.rs` lines 153 and 244
propagates the failure.  The persisted meta survives. -/
theorem c2_counterexample :
    (create_rfq failEnv createGen emptyStore createReq none).2 =
      .error (.Internal "Failed to send email") ∧
    (post_message failEnv ⟨9, 5⟩ createdStore "r_AAAAAAAA" postReq none).2 =
      .error (.Internal "Failed to send email") ∧
    get_rfq_meta (create_rfq failEnv createGen emptyStore createReq none).1
      ⟨"r_AAAAAAAA"⟩ ≠ none := by
  refine ⟨by decide, by decide, by decide⟩

/-- C2 amended: when all repository writes succeed but the notification
sender fails with `e`, the command does **not** return its success
response: it returns `e`.  The already-persisted data is indeed unchanged —
the returned store still carries the saved meta, both events and the index
— but the command itself fails. -/
theorem c2_amended (env : Env) (g : CreateGen) (st : Store)
    (request : CreateRfqRequest) (e : DomainError)
    (tid : TenantId) (mid : ManufacturerId) (em : Email) (mb : MessageBody)
    (manufacturer : ManufacturerProfile) (meta : RfqMeta)
    (h1 : TenantId.new request.tenant_id = .ok tid)
    (h2 : ManufacturerId.new request.manufacturer_id = .ok mid)
    (h3 : Email.new request.buyer.email = .ok em)
    (h4 : MessageBody.new request.body = .ok mb)
    (h5 : get_manufacturer env mid = some manufacturer)
    (h6 : request.attachments = none)
    (hmeta : meta =
      ⟨g.rfqId, tid.val, mid.val, ⟨em.val, request.buyer.name⟩, request.subject,
       .Open, g.now, g.now,
       [⟨.Buyer, em.val, request.buyer.name⟩,
        ⟨.Manufacturer, manufacturer.contact_email.getD "", some manufacturer.name⟩],
       none⟩)
    (h7 : env.sendCreated meta = .error e) :
    create_rfq env g st request none =
      (save_rfq_index
        (save_rfq_event
          (save_rfq_event (save_rfq_meta st meta)
            (RfqEvent.new_status g.rfqId .System .RfqCreated none g.statusEvId g.statusEvTs))
          (RfqEvent.new_message g.rfqId .Buyer mb.val g.msgEvId g.msgEvTs))
        ⟨g.rfqId⟩ ⟨g.now, 2⟩,
       .error e) := by
  subst hmeta
  simp only [create_rfq, replayCheck, h1, h2, h3, h4, h5, h6, h7,
    processAttachments, Option.isSome_none, Bool.false_eq_true, if_false]

/-- C2 amended witness: the scenario run against `failEnv`. -/
theorem c2_amended_witness :
    create_rfq failEnv createGen emptyStore createReq none =
      (save_rfq_index
        (save_rfq_event
          (save_rfq_event
            (save_rfq_meta emptyStore
              ⟨"r_AAAAAAAA", "t1", "mfg_ABC12345", ⟨"buyer@x.com", none⟩,
               "Need 500 units", .Open, 0, 0,
               [⟨.Buyer, "buyer@x.com", none⟩,
                ⟨.Manufacturer, "sales@acme.com", some "Acme Metals"⟩], none⟩)
            (RfqEvent.new_status "r_AAAAAAAA" .System .RfqCreated none 1 1))
          (RfqEvent.new_message "r_AAAAAAAA" .Buyer "Please quote." 2 2))
        ⟨"r_AAAAAAAA"⟩ ⟨0, 2⟩,
       .error (.Internal "Failed to send email")) :=
  c2_amended failEnv createGen emptyStore createReq (.Internal "Failed to send email")
    ⟨"t1"⟩ ⟨"mfg_ABC12345"⟩ ⟨"buyer@x.com"⟩ ⟨"Please quote."⟩ testManufacturer
    _ (by decide) (by decide) (by decide) (by decide) (by decide) rfl rfl (by decide)

/-- C1 counterexample: after the scenario `create_rfq` (creation instant 0)
followed by a `post_message` whose Message event is stamped at instant 5,
the stored `RfqMeta.last_event_ts` is still 0 — `post_message` never
rewrites the meta — while the most recently appended event (the head of the
event key space, and the one with the maximal timestamp) is stamped 5. -/
theorem c1_counterexample :
    (get_rfq_meta postedStore ⟨"r_AAAAAAAA"⟩).map RfqMeta.last_event_ts = some 0 ∧
    postedStore.events.head? =
      some ⟨"r_AAAAAAAA", 0, 9,
        some (RfqEvent.new_message "r_AAAAAAAA" .Manufacturer "We can do it." 9 5)⟩ ∧
    (RfqEvent.new_message "r_AAAAAAAA" .Manufacturer "We can do it." 9 5).timestamp = 5 ∧
    (∀ en ∈ postedStore.events, ∀ ev, en.record = some ev → ev.timestamp ≤ 5) ∧
    (0 : Time) ≠ 5 := by
  refine ⟨by decide, by decide, by decide, by decide, by decide⟩

/-- C1 amended: `post_message` leaves the stored `RfqMeta` — and so its
`last_event_ts` — exactly as it was, and instead records the new Message
event's timestamp in `RfqIndex.last_event_ts` (bumping `count` by one); the
index, not the meta, is the record that tracks the most recently appended
event after `post_message`. -/
theorem c1_amended (env : Env) (g : MsgGen) (st : Store) (rfq_id : String)
    (request : PostMessageRequest) (rid : RfqId) (mb : MessageBody) (meta : RfqMeta)
    (h0 : RfqId.new rfq_id = .ok rid)
    (h1 : MessageBody.new request.body = .ok mb)
    (h2 : get_rfq_meta st rid = some meta)
    (h3 : request.by_ = "buyer")
    (h4 : env.sendMessage meta
      (RfqEvent.new_message rid.val .Buyer mb.val g.msgEvId g.msgEvTs) = .ok ()) :
    get_rfq_index (post_message env g st rfq_id request none).1 rid =
      some ⟨g.msgEvTs, ((get_rfq_index st rid).getD ⟨g.msgEvTs, 0⟩).count + 1⟩ ∧
    get_rfq_meta (post_message env g st rfq_id request none).1 rid = some meta := by
  have hres : post_message env g st rfq_id request none =
      (save_rfq_index
        (save_rfq_event st
          (RfqEvent.new_message rid.val .Buyer mb.val g.msgEvId g.msgEvTs))
        rid
        ⟨g.msgEvTs,
         ((get_rfq_index
             (save_rfq_event st
               (RfqEvent.new_message rid.val .Buyer mb.val g.msgEvId g.msgEvTs))
             rid).getD ⟨g.msgEvTs, 0⟩).count + 1⟩,
       .ok ⟨g.msgEvTs⟩) := by
    simp only [RfqEvent.new_message] at h4
    simp only [post_message, replayCheck, h0, h1, h2, h3, if_true, h4,
      RfqEvent.timestamp, RfqEvent.new_message]
  rw [hres]
  constructor
  · show lookup ((rid.val, _) :: _) rid.val = _
    simp only [lookup, List.find?, decide_eq_true_eq, if_pos rfl]
    rfl
  · exact h2

/-- C1 amended witness: a buyer reply at instant 5 onto the scenario store
bumps the index to `(5, 3)` and leaves the stored meta (with
`last_event_ts = 0`) untouched. -/
theorem c1_amended_witness :
    get_rfq_index (post_message testEnv ⟨9, 5⟩ createdStore "r_AAAAAAAA"
      ⟨"buyer", "Thanks for the quote.", none⟩ none).1 ⟨"r_AAAAAAAA"⟩ = some ⟨5, 3⟩ ∧
    get_rfq_meta (post_message testEnv ⟨9, 5⟩ createdStore "r_AAAAAAAA"
      ⟨"buyer", "Thanks for the quote.", none⟩ none).1 ⟨"r_AAAAAAAA"⟩ =
      some ⟨"r_AAAAAAAA", "t1", "mfg_ABC12345", ⟨"buyer@x.com", none⟩,
        "Need 500 units", .Open, 0, 0,
        [⟨.Buyer, "buyer@x.com", none⟩,
         ⟨.Manufacturer, "sales@acme.com", some "Acme Metals"⟩], none⟩ :=
  c1_amended testEnv ⟨9, 5⟩ createdStore "r_AAAAAAAA"
    ⟨"buyer", "Thanks for the quote.", none⟩ ⟨"r_AAAAAAAA"⟩ ⟨"Thanks for the quote."⟩
    ⟨"r_AAAAAAAA", "t1", "mfg_ABC12345", ⟨"buyer@x.com", none⟩,
     "Need 500 units", .Open, 0, 0,
     [⟨.Buyer, "buyer@x.com", none⟩,
      ⟨.Manufacturer, "sales@acme.com", some "Acme Metals"⟩], none⟩
    (by decide) (by decide) (by decide) rfl (by decide)

/-- C8 counterexample: the scenario request with `attachments = Some([])`
behaves differently from the same request with `attachments = None`: an
`Attachment` event (with an empty ref vector) **is** appended as a third
event and the index is written with `count = 3`, because
`if let Some(dtos)` and `attachments.is_some()` both treat `Some([])` as
present. -/
theorem c8_counterexample :
    createdStoreEmptyAtt.events.length = 3 ∧
    createdStoreEmptyAtt.events.head? =
      some ⟨"r_AAAAAAAA", 0, 3,
        some (RfqEvent.new_attachment "r_AAAAAAAA" .Buyer [] 3 3)⟩ ∧
    lookup createdStoreEmptyAtt.indexes "r_AAAAAAAA" = some ⟨0, 3⟩ ∧
    createdStore.events.length = 2 ∧
    lookup createdStore.indexes "r_AAAAAAAA" = some ⟨0, 2⟩ := by
  refine ⟨by decide, by decide, by decide, by decide, by decide⟩

/-- C8 amended: a `create_rfq` request whose attachments field is an empty
list is treated as *having* attachments: besides the Status and Message
events an `Attachment` event carrying the empty ref list is appended, and
the `RfqIndex` is written with `count = 3`, not 2. -/
theorem c8_amended (env : Env) (g : CreateGen) (st : Store)
    (request : CreateRfqRequest)
    (tid : TenantId) (mid : ManufacturerId) (em : Email) (mb : MessageBody)
    (manufacturer : ManufacturerProfile) (meta : RfqMeta)
    (h1 : TenantId.new request.tenant_id = .ok tid)
    (h2 : ManufacturerId.new request.manufacturer_id = .ok mid)
    (h3 : Email.new request.buyer.email = .ok em)
    (h4 : MessageBody.new request.body = .ok mb)
    (h5 : get_manufacturer env mid = some manufacturer)
    (h6 : request.attachments = some [])
    (hmeta : meta =
      ⟨g.rfqId, tid.val, mid.val, ⟨em.val, request.buyer.name⟩, request.subject,
       .Open, g.now, g.now,
       [⟨.Buyer, em.val, request.buyer.name⟩,
        ⟨.Manufacturer, manufacturer.contact_email.getD "", some manufacturer.name⟩],
       some []⟩)
    (h7 : env.sendCreated meta = .ok ()) :
    create_rfq env g st request none =
      (save_rfq_index
        (save_rfq_event
          (save_rfq_event
            (save_rfq_event (save_rfq_meta st meta)
              (RfqEvent.new_status g.rfqId .System .RfqCreated none g.statusEvId g.statusEvTs))
            (RfqEvent.new_message g.rfqId .Buyer mb.val g.msgEvId g.msgEvTs))
          (RfqEvent.new_attachment g.rfqId .Buyer [] g.attEvId g.attEvTs))
        ⟨g.rfqId⟩ ⟨g.now, 3⟩,
       .ok ⟨g.rfqId, g.now⟩) := by
  subst hmeta
  simp only [create_rfq, replayCheck, h1, h2, h3, h4, h5, h6, h7,
    processAttachments, processAttachmentList, Except.map, Option.isSome_some, if_true]

/-- C8 amended witness: the scenario empty-attachments run. -/
theorem c8_amended_witness :
    create_rfq testEnv createGen emptyStore createReqEmptyAtt none =
      (save_rfq_index
        (save_rfq_event
          (save_rfq_event
            (save_rfq_event
              (save_rfq_meta emptyStore
                ⟨"r_AAAAAAAA", "t1", "mfg_ABC12345", ⟨"buyer@x.com", none⟩,
                 "Need 500 units", .Open, 0, 0,
                 [⟨.Buyer, "buyer@x.com", none⟩,
                  ⟨.Manufacturer, "sales@acme.com", some "Acme Metals"⟩],
                 some []⟩)
              (RfqEvent.new_status "r_AAAAAAAA" .System .RfqCreated none 1 1))
            (RfqEvent.new_message "r_AAAAAAAA" .Buyer "Please quote." 2 2))
          (RfqEvent.new_attachment "r_AAAAAAAA" .Buyer [] 3 3))
        ⟨"r_AAAAAAAA"⟩ ⟨0, 3⟩,
       .ok ⟨"r_AAAAAAAA", 0⟩) :=
  c8_amended testEnv createGen emptyStore createReqEmptyAtt
    ⟨"t1"⟩ ⟨"mfg_ABC12345"⟩ ⟨"buyer@x.com"⟩ ⟨"Please quote."⟩
    testManufacturer _
    (by decide) (by decide) (by decide) (by decide) (by decide) rfl rfl (by decide)

/-- C7 counterexample: the scenario `create_rfq` (no attachments) followed
immediately by a listing does return exactly 2 items in the right order and
authorship, **but** the status DTO's serialized status field is
`"rfqcreated"` — `format("{:?}", StatusType::RfqCreated).to_lowercase()`
drops no underscore in — not the `"rfq_created"` the claim (and the serde
`snake_case` wire shape of the stored event) prescribe. -/
theorem c7_counterexample :
    list_events createdStore "r_AAAAAAAA" none none =
      .ok ⟨[.Status 1 "r_AAAAAAAA" 1 "system" "rfqcreated" none,
            .Message 2 "r_AAAAAAAA" 2 "buyer" "Please quote."], some 2⟩ ∧
    statusDebugLower .RfqCreated = "rfqcreated" ∧
    "rfqcreated" ≠ "rfq_created" := by
  refine ⟨by decide, rfl, by decide⟩

/-- C7 amended: a successful no-attachments `create_rfq` (fresh RFQ key
space, event stamps in creation order) followed immediately by a listing
returns exactly 2 items: first a status event whose serialized status field
is `"rfqcreated"` (Debug-lowercased, without the underscore) with `by`
`"system"`, then a message event carrying the request body with `by`
`"buyer"`. -/
theorem c7_amended (env : Env) (g : CreateGen) (st : Store)
    (request : CreateRfqRequest)
    (tid : TenantId) (mid : ManufacturerId) (em : Email) (mb : MessageBody)
    (manufacturer : ManufacturerProfile) (meta : RfqMeta)
    (h1 : TenantId.new request.tenant_id = .ok tid)
    (h2 : ManufacturerId.new request.manufacturer_id = .ok mid)
    (h3 : Email.new request.buyer.email = .ok em)
    (h4 : MessageBody.new request.body = .ok mb)
    (h5 : get_manufacturer env mid = some manufacturer)
    (h6 : request.attachments = none)
    (hmeta : meta =
      ⟨g.rfqId, tid.val, mid.val, ⟨em.val, request.buyer.name⟩, request.subject,
       .Open, g.now, g.now,
       [⟨.Buyer, em.val, request.buyer.name⟩,
        ⟨.Manufacturer, manufacturer.contact_email.getD "", some manufacturer.name⟩],
       none⟩)
    (h7 : env.sendCreated meta = .ok ())
    (h8 : RfqId.new g.rfqId = .ok ⟨g.rfqId⟩)
    (h9 : ∀ en ∈ st.events, ¬ en.rfq_id = g.rfqId)
    (h10 : g.statusEvTs < g.msgEvTs) :
    list_events (create_rfq env g st request none).1 g.rfqId none none =
      .ok ⟨[.Status g.statusEvId g.rfqId g.statusEvTs "system" "rfqcreated" none,
            .Message g.msgEvId g.rfqId g.msgEvTs "buyer" mb.val], some g.msgEvTs⟩ := by
  have hcr : create_rfq env g st request none =
      (save_rfq_index
        (save_rfq_event
          (save_rfq_event (save_rfq_meta st meta)
            (RfqEvent.new_status g.rfqId .System .RfqCreated none g.statusEvId g.statusEvTs))
          (RfqEvent.new_message g.rfqId .Buyer mb.val g.msgEvId g.msgEvTs))
        ⟨g.rfqId⟩ ⟨g.now, 2⟩, .ok ⟨g.rfqId, g.now⟩) := by
    subst hmeta
    simp only [create_rfq, replayCheck, h1, h2, h3, h4, h5, h6, h7,
      processAttachments, Option.isSome_none, Bool.false_eq_true, if_false]
  rw [hcr]
  have hnil : List.filter (fun en => decide (en.rfq_id = g.rfqId)) st.events = [] := by
    rw [List.filter_eq_nil_iff]
    intro en hen
    simp [h9 en hen]
  simp only [list_events, h8, list_rfq_events, listKeys, processFetched,
    save_rfq_index, save_rfq_event, save_rfq_meta,
    RfqEvent.new_status, RfqEvent.new_message, RfqEvent.rfq_id, RfqEvent.timestamp,
    RfqEvent.id, afterBound, Option.map_none', Bool.and_true, List.filter_cons,
    decide_eq_true_eq, eq_self_iff_true, if_true, hnil]
  have h50 : ((none : Option Nat).getD 50) ⊓ 200 = 50 := by decide
  have hmle : ¬ eventLe
      (RfqEvent.Message ⟨⟨g.msgEvId, g.rfqId, g.msgEvTs, .Buyer, "message"⟩, mb.val⟩)
      (RfqEvent.Status ⟨⟨g.statusEvId, g.rfqId, g.statusEvTs, .System, "status"⟩,
        .RfqCreated, none⟩) := by
    intro hc
    simp only [eventLe, RfqEvent.timestamp, RfqEvent.id] at hc
    rcases hc with hlt | ⟨heq, _⟩
    · exact absurd hlt (lt_asymm h10)
    · exact absurd heq (ne_of_gt h10)
  have hsle : eventLe
      (RfqEvent.Status ⟨⟨g.statusEvId, g.rfqId, g.statusEvTs, .System, "status"⟩,
        .RfqCreated, none⟩)
      (RfqEvent.Message ⟨⟨g.msgEvId, g.rfqId, g.msgEvTs, .Buyer, "message"⟩, mb.val⟩) :=
    Or.inl h10
  rw [h50]
  by_cases hk : keyLe
      ⟨g.rfqId, toSec g.msgEvTs, g.msgEvId,
        some (RfqEvent.Message ⟨⟨g.msgEvId, g.rfqId, g.msgEvTs, .Buyer, "message"⟩, mb.val⟩)⟩
      ⟨g.rfqId, toSec g.statusEvTs, g.statusEvId,
        some (RfqEvent.Status ⟨⟨g.statusEvId, g.rfqId, g.statusEvTs, .System, "status"⟩,
          .RfqCreated, none⟩)⟩
  · simp only [List.insertionSort, List.orderedInsert, if_pos hk]
    rw [List.take_of_length_le (by simp)]
    simp only [deserializeAll, Except.map, sortEvents, List.insertionSort,
      List.orderedInsert, if_neg hmle, event_to_dto, authorDebugLower,
      statusDebugLower, List.map, List.getLast?_cons_cons, List.getLast?_singleton,
      Option.map_some', RfqEvent.timestamp]
  · simp only [List.insertionSort, List.orderedInsert, if_neg hk]
    rw [List.take_of_length_le (by simp)]
    simp only [deserializeAll, Except.map, sortEvents, List.insertionSort,
      List.orderedInsert, if_pos hsle, event_to_dto, authorDebugLower,
      statusDebugLower, List.map, List.getLast?_cons_cons, List.getLast?_singleton,
      Option.map_some', RfqEvent.timestamp]

/-- C7 amended witness: the scenario run. -/
theorem c7_amended_witness :
    list_events (create_rfq testEnv createGen emptyStore createReq none).1
      "r_AAAAAAAA" none none =
      .ok ⟨[.Status 1 "r_AAAAAAAA" 1 "system" "rfqcreated" none,
            .Message 2 "r_AAAAAAAA" 2 "buyer" "Please quote."], some 2⟩ :=
  c7_amended testEnv createGen emptyStore createReq ⟨"t1"⟩ ⟨"mfg_ABC12345"⟩
    ⟨"buyer@x.com"⟩ ⟨"Please quote."⟩ testManufacturer _
    (by decide) (by decide) (by decide) (by decide) (by decide) rfl rfl
    (by decide) (by decide) (by decide) (by decide)

/-- Pairing lemma: `Forall₂` yields, for each left element, a related right
element. -/
theorem forall2_mem {α β : Type} {R : α → β → Prop} :
    ∀ {l : List α} {m : List β}, List.Forall₂ R l m → ∀ a ∈ l, ∃ b ∈ m, R a b := by
  intro l m h
  induction h with
  | nil => intro a ha; cases ha
  | cons hr _ ih =>
    intro a ha
    rcases List.mem_cons.mp ha with rfl | ha
    · exact ⟨_, List.mem_cons_self _ _, hr⟩
    · rcases ih a ha with ⟨b, hb, hrb⟩
      exact ⟨b, List.mem_cons_of_mem _ hb, hrb⟩


/-- A batch whose records all deserialize yields a successful fetch loop. -/
theorem deserializeAll_ok_of_good :
    ∀ {l : List EvEntry}, (∀ en ∈ l, ∃ ev, en.record = some ev) →
      ∃ evs, deserializeAll l = .ok evs := by
  intro l
  induction l with
  | nil => intro _; exact ⟨[], rfl⟩
  | cons en rest ih =>
    intro h
    rcases h en (List.mem_cons_self _ _) with ⟨ev, hev⟩
    rcases ih (fun x hx => h x (List.mem_cons_of_mem _ hx)) with ⟨evs, hevs⟩
    refine ⟨ev :: evs, ?_⟩
    simp [deserializeAll, hev, hevs, Except.map]


/-- C6 counterexample: on a store holding exactly one event (at instant
5 s), `list_events` with `limit = 1` returns that event with `next_since`
its timestamp — and the follow-up call with `since = next_since` returns
the **same event again** instead of the empty remainder: the `start_after`
bound `events/{since truncated to seconds}-` sorts strictly before the
event's own key, so the boundary event is re-fetched and the union contains
it twice. -/
theorem c6_counterexample :
    list_events store6 "r_B" none (some 1) =
      .ok ⟨[event_to_dto (RfqEvent.new_message "r_B" .Buyer "hello" 1 (5 * nanosPerSec))],
           some (5 * nanosPerSec)⟩ ∧
    list_events store6 "r_B" (some (5 * nanosPerSec)) none =
      .ok ⟨[event_to_dto (RfqEvent.new_message "r_B" .Buyer "hello" 1 (5 * nanosPerSec))],
           some (5 * nanosPerSec)⟩ := by
  refine ⟨by decide, by decide⟩

/-- C6 amended: paging with `limit = 1` and then `since = next_since` loses
nothing — every stored event of the RFQ appears in the second page — but it
does **not** yield "exactly the remaining events": the second page includes
the first page's event again (`start_after` is the second-truncated
timestamp bound, which every already-returned key exceeds), so the union
covers every event while the boundary event is duplicated.  Stated for any
well-formed store (committed records deserialize and their key seconds
derive from their timestamps) with at most 50 events for the RFQ. -/
theorem c6_amended (st : Store) (rfq_id : String)
    (hid : RfqId.new rfq_id = .ok ⟨rfq_id⟩)
    (hwf : ∀ en ∈ st.events, en.rfq_id = rfq_id →
      ∃ ev, en.record = some ev ∧ en.keySec = toSec ev.timestamp)
    (hcount : (eventsFor st rfq_id).length ≤ 50)
    (hne : eventsFor st rfq_id ≠ []) :
    ∃ (e : RfqEvent) (resp2 : ListEventsResponse),
      list_events st rfq_id none (some 1) =
        .ok ⟨[event_to_dto e], some e.timestamp⟩ ∧
      list_events st rfq_id (some e.timestamp) none = .ok resp2 ∧
      event_to_dto e ∈ resp2.items ∧
      (∀ en ∈ st.events, en.rfq_id = rfq_id → ∀ ev, en.record = some ev →
        event_to_dto ev ∈ resp2.items) := by
  have hfe1 : st.events.filter (fun en => en.rfq_id = rfq_id && afterBound none en)
      = eventsFor st rfq_id := by
    unfold eventsFor
    exact List.filter_congr (fun en _ => by simp [afterBound])
  have hperm : ((eventsFor st rfq_id).insertionSort keyLe).Perm (eventsFor st rfq_id) :=
    List.perm_insertionSort keyLe _
  have hSLne : (eventsFor st rfq_id).insertionSort keyLe ≠ [] := by
    intro h0
    exact hne (List.Perm.eq_nil (h0 ▸ hperm.symm))
  obtain ⟨m, rest, hcons⟩ := List.exists_cons_of_ne_nil hSLne
  have hmem_m : m ∈ eventsFor st rfq_id :=
    hperm.mem_iff.mp (hcons ▸ List.mem_cons_self m rest)
  have hm_parts := List.mem_filter.mp hmem_m
  have hm_st : m ∈ st.events := hm_parts.1
  have hm_rfq : m.rfq_id = rfq_id := by
    have := hm_parts.2
    simpa using this
  obtain ⟨e, he_rec, he_sec⟩ := hwf m hm_st hm_rfq
  have hsorted : ((eventsFor st rfq_id).insertionSort keyLe).Sorted keyLe :=
    List.sorted_insertionSort keyLe _
  have hmin : ∀ x ∈ eventsFor st rfq_id, m.keySec ≤ x.keySec := by
    intro x hx
    have hx' : x ∈ (eventsFor st rfq_id).insertionSort keyLe := hperm.mem_iff.mpr hx
    rw [hcons] at hx' hsorted
    rcases List.mem_cons.mp hx' with rfl | hx'
    · exact le_refl _
    · have hk := (List.sorted_cons.mp hsorted).1 x hx'
      rcases hk with hlt | ⟨heq, _⟩
      · exact le_of_lt hlt
      · exact le_of_eq heq
  have h1lim : ((some 1 : Option Nat).getD 50) ⊓ 200 = 1 := by decide
  have h50lim : ((none : Option Nat).getD 50) ⊓ 200 = 50 := by decide
  have hpage1 : list_events st rfq_id none (some 1) =
      .ok ⟨[event_to_dto e], some e.timestamp⟩ := by
    simp only [list_events, hid, list_rfq_events, listKeys, processFetched,
      Option.map_none', hfe1, h1lim, hcons, List.take_succ_cons, List.take_zero,
      deserializeAll, he_rec, Except.map, sortEvents, List.insertionSort,
      List.orderedInsert, event_to_dto, List.map, List.getLast?_singleton,
      Option.map_some']
  have hfe2 : st.events.filter
      (fun en => en.rfq_id = rfq_id && afterBound (some (toSec e.timestamp)) en)
      = eventsFor st rfq_id := by
    unfold eventsFor
    refine List.filter_congr ?_
    intro en hen
    by_cases hr : en.rfq_id = rfq_id
    · have hmem : en ∈ eventsFor st rfq_id :=
        List.mem_filter.mpr ⟨hen, by simp [hr]⟩
      have hle : m.keySec ≤ en.keySec := hmin en hmem
      rw [← he_sec]
      simp [afterBound, hr, hle]
    · simp [afterBound, hr]
  have htake2 : ((eventsFor st rfq_id).insertionSort keyLe).take 50 =
      (eventsFor st rfq_id).insertionSort keyLe := by
    apply List.take_of_length_le
    rw [hperm.length_eq]
    exact hcount
  have hgood : ∀ en ∈ (eventsFor st rfq_id).insertionSort keyLe,
      ∃ ev, en.record = some ev := by
    intro en hen
    have hmem := hperm.mem_iff.mp hen
    have hp := List.mem_filter.mp hmem
    obtain ⟨ev, hrec, _⟩ := hwf en hp.1 (by simpa using hp.2)
    exact ⟨ev, hrec⟩
  obtain ⟨evs, hevs⟩ := deserializeAll_ok_of_good hgood
  have hf2 := deserializeAll_forall2 hevs
  have hpage2 : list_events st rfq_id (some e.timestamp) none =
      .ok ⟨(sortEvents evs).map event_to_dto,
           ((sortEvents evs).getLast?).map RfqEvent.timestamp⟩ := by
    simp only [list_events, hid, list_rfq_events, listKeys, processFetched,
      Option.map_some', hfe2, h50lim, htake2, hevs, Except.map]
  refine ⟨e, ⟨(sortEvents evs).map event_to_dto,
    ((sortEvents evs).getLast?).map RfqEvent.timestamp⟩, hpage1, hpage2, ?_, ?_⟩
  · have hmSL : m ∈ (eventsFor st rfq_id).insertionSort keyLe := by
      rw [hcons]; exact List.mem_cons_self _ _
    obtain ⟨ev, hevmem, hrec⟩ := forall2_mem hf2 m hmSL
    have hee : e = ev := by
      rw [he_rec] at hrec
      exact Option.some.inj hrec
    rw [hee]
    exact List.mem_map_of_mem event_to_dto
      ((List.mem_insertionSort eventLe).mpr hevmem)
  · intro en hen hrfq ev hrec0
    have hmem : en ∈ eventsFor st rfq_id :=
      List.mem_filter.mpr ⟨hen, by simp [hrfq]⟩
    have henSL : en ∈ (eventsFor st rfq_id).insertionSort keyLe :=
      hperm.mem_iff.mpr hmem
    obtain ⟨ev2, hev2mem, hrec2⟩ := forall2_mem hf2 en henSL
    have hee : ev = ev2 := by
      rw [hrec0] at hrec2
      exact Option.some.inj hrec2
    rw [hee]
    exact List.mem_map_of_mem event_to_dto
      ((List.mem_insertionSort eventLe).mpr hev2mem)

/-- C6 amended witness: the one-event store. -/
theorem c6_amended_witness :
    ∃ (e : RfqEvent) (resp2 : ListEventsResponse),
      list_events store6 "r_B" none (some 1) =
        .ok ⟨[event_to_dto e], some e.timestamp⟩ ∧
      list_events store6 "r_B" (some e.timestamp) none = .ok resp2 ∧
      event_to_dto e ∈ resp2.items ∧
      (∀ en ∈ store6.events, en.rfq_id = "r_B" → ∀ ev, en.record = some ev →
        event_to_dto ev ∈ resp2.items) :=
  c6_amended store6 "r_B" (by decide)
    (by
      intro en hen hrfq
      have hev : store6.events =
          [⟨"r_B", 5, 1, some (RfqEvent.new_message "r_B" .Buyer "hello" 1
            (5 * nanosPerSec))⟩] := rfl
      rw [hev] at hen
      rcases List.mem_singleton.mp hen with rfl
      exact ⟨RfqEvent.new_message "r_B" .Buyer "hello" 1 (5 * nanosPerSec), rfl, rfl⟩)
    (by decide) (by decide)

end Terra


